import Mathlib

/-!
Shallow embedding, in Lean 4, of the deal-pipeline backend of the
`poker-face` repository (FastAPI + SQLAlchemy CRM sprint board with
rule-based AI-agent fallbacks), together with theorems settling the
frozen specification claims.

Python strings are modelled as `List Char` (ASCII is all that the
embedded code paths manipulate), Python floats as `ℚ`, nullable columns
as `Option`, raised exceptions as `Except` errors, and the database
session as explicit state passed through the embedded handlers.
-/

/-- Python strings, modelled as lists of characters. -/
abbrev PyStr := List Char

/-- Coerce a Lean string literal into the Python-string model. -/
def ps (s : String) : PyStr := s.toList

/-- ASCII lower-casing of a single character, as Python `str.lower` acts on
the ASCII range (the only characters the embedded code manipulates). -/
def charLower (c : Char) : Char :=
  if 65 ≤ c.toNat ∧ c.toNat ≤ 90 then Char.ofNat (c.toNat + 32) else c

/-- ASCII upper-casing of a single character, as Python `str.upper` acts on
the ASCII range. -/
def charUpper (c : Char) : Char :=
  if 97 ≤ c.toNat ∧ c.toNat ≤ 122 then Char.ofNat (c.toNat - 32) else c

/-- Python `str.lower`. -/
def pyLower (s : PyStr) : PyStr := s.map charLower

/-- Python `str.upper`. -/
def pyUpper (s : PyStr) : PyStr := s.map charUpper

theorem toNat_ofNat_small (n : Nat) (h1 : n < 55296) : (Char.ofNat n).toNat = n := by
  have hv : Nat.isValidChar n := Or.inl h1
  simp only [Char.ofNat, hv, dif_pos, Char.toNat, Char.ofNatAux]
  simp [UInt32.toNat]

theorem charLower_idem (c : Char) : charLower (charLower c) = charLower c := by
  unfold charLower
  by_cases h : 65 ≤ c.toNat ∧ c.toNat ≤ 90
  · have hlt : c.toNat + 32 < 55296 := by omega
    have ht : (Char.ofNat (c.toNat + 32)).toNat = c.toNat + 32 :=
      toNat_ofNat_small _ hlt
    rw [if_pos h, if_neg]
    rw [ht]
    omega
  · rw [if_neg h, if_neg h]

theorem pyLower_idem (s : PyStr) : pyLower (pyLower s) = pyLower s := by
  unfold pyLower
  rw [List.map_map]
  exact List.map_congr_left fun c _ => charLower_idem c

/-! ### `sprint_models.DealStatus`

`class DealStatus(enum.Enum)` with six members; the `Deal.status` column is
a nullable SQL `String`, so a stored status is an `Option PyStr`. -/

/-- The `DealStatus` enum from `sprint_models.py`. -/
inductive DealStatus where
  | lead
  | qualified_solution
  | qualified_delivery
  | qualified_cso
  | deal
  | project
deriving DecidableEq

/-- The `.value` of each `DealStatus` member. -/
def DealStatus.value : DealStatus → PyStr
  | .lead => ps "lead"
  | .qualified_solution => ps "qualified_solution"
  | .qualified_delivery => ps "qualified_delivery"
  | .qualified_cso => ps "qualified_cso"
  | .deal => ps "deal"
  | .project => ps "project"

/-- All members, in declaration order (Python `for status in DealStatus`). -/
def DealStatus.members : List DealStatus :=
  [.lead, .qualified_solution, .qualified_delivery, .qualified_cso, .deal, .project]

/-- The six status strings, in pipeline order. -/
def validStatusValues : List PyStr := DealStatus.members.map DealStatus.value

/-- Python `DealStatus(value)`: lookup of an enum member by value
(raises `ValueError`, i.e. `none`, when no member matches). -/
def DealStatus.fromValue (s : PyStr) : Option DealStatus :=
  DealStatus.members.find? fun m => m.value = s

/-- Python `DealStatus[name]`: lookup of an enum member by member name
(raises `KeyError`, i.e. `none`, when no member matches). -/
def DealStatus.fromName (s : PyStr) : Option DealStatus :=
  DealStatus.members.find? fun m => pyUpper m.value = s

/-! ### `sprint_api.normalize_status` -/

/-- The argument of `normalize_status`: either a Python `str` or a
`DealStatus` enum member. -/
inductive StatusArg where
  | str (s : PyStr)
  | enum (e : DealStatus)

/-- `sprint_api.normalize_status`: lower-cases a string status, and
lower-cases the `.value` of an enum status. -/
def normalize_status : StatusArg → PyStr
  | .str s => pyLower s
  | .enum e => pyLower e.value

/-- C7 -- `normalize_status` maps a string `s` to `s.lower()` and an enum
member `e` to `e.value.lower()`; it is idempotent, and on each of the six
members it agrees with normalizing the member's string value. -/
theorem normalize_status_spec :
    (∀ s : PyStr, normalize_status (.str s) = pyLower s) ∧
    (∀ e : DealStatus, normalize_status (.enum e) = pyLower e.value) ∧
    (∀ x : StatusArg,
      normalize_status (.str (normalize_status x)) = normalize_status x) ∧
    (∀ e : DealStatus,
      normalize_status (.enum e) = normalize_status (.str e.value)) := by
  refine ⟨fun s => rfl, fun e => rfl, fun x => ?_, fun e => rfl⟩
  cases x <;> simp [normalize_status, pyLower_idem]

/-! ### Data model: deals, persons, status history, placeholder insights

`Deal.status` is a nullable SQL `String` column, hence `Option PyStr`.
Integer-typed columns that no embedded code path ever sets to NULL
(`board_position`) are modelled as plain `Int`. -/

/-- The `PersonRole` enum from `sprint_models.py`. -/
inductive PersonRole where
  | sales
  | head_of_engineering
  | head_of_delivery
  | cso
  | project_manager
deriving DecidableEq

/-- A row of the `persons` table (the fields the embedded handlers read). -/
structure PersonRec where
  id : Nat
  role : PersonRole
deriving DecidableEq

/-- A row of the `deals` table (the fields the embedded handlers touch). -/
structure DealRec where
  id : Nat
  title : PyStr
  status : Option PyStr
  board_position : Int
  assigned_person_id : Option Nat
  estimated_value : Option ℚ
  budget_range_min : Option ℚ
  budget_range_max : Option ℚ
deriving DecidableEq

/-- A row of the `status_history` table. -/
structure StatusHistoryRec where
  deal_id : Nat
  previous_status : PyStr
  new_status : PyStr
  change_reason : Option PyStr
deriving DecidableEq

/-- Python `c.isalpha()` on the ASCII range. -/
def charIsAlpha (c : Char) : Bool :=
  (65 ≤ c.toNat && c.toNat ≤ 90) || (97 ≤ c.toNat && c.toNat ≤ 122)

/-- Helper for `pyTitle`: the `Bool` says whether the previous character
was alphabetic. -/
def pyTitleAux : Bool → PyStr → PyStr
  | _, [] => []
  | prevAlpha, c :: rest =>
      (if charIsAlpha c then (if prevAlpha then charLower c else charUpper c) else c)
        :: pyTitleAux (charIsAlpha c) rest

/-- Python `str.title()` on the ASCII range. -/
def pyTitle (s : PyStr) : PyStr := pyTitleAux false s

/-- Python `str.replace(old, new)` for single-character patterns. -/
def pyReplace (old new : Char) (s : PyStr) : PyStr :=
  s.map fun c => if c = old then new else c

/-- The placeholder `AIInsight` row added by
`sprint_api._trigger_ai_insight_for_status`. -/
structure PlaceholderInsight where
  deal_id : Nat
  insight_type : PyStr
  title : PyStr
  description : PyStr
  triggered_by_status : PyStr
  ai_model_version : PyStr
deriving DecidableEq

/-- `sprint_api._trigger_ai_insight_for_status`: builds and adds the
placeholder insight row for a qualified status. -/
def triggerAiInsightForStatus (deal_id : Nat) (status : DealStatus) : PlaceholderInsight :=
  { deal_id := deal_id
    insight_type := status.value ++ ps "_analysis"
    title := ps "AI Analysis for " ++ pyTitle (pyReplace (Char.ofNat 95) (Char.ofNat 32) status.value)
    description := ps "Automatic AI analysis triggered for status change to " ++ status.value
    triggered_by_status := normalize_status (.enum status)
    ai_model_version := ps "v1.0" }

/-- The database session state touched by the deal-status endpoints. -/
structure SprintDB where
  deals : List DealRec
  persons : List PersonRec
  history : List StatusHistoryRec
  insights : List PlaceholderInsight
deriving DecidableEq

/-- A raised `HTTPException`: status code and detail string. -/
inductive ApiError where
  | http (code : Nat) (detail : PyStr)
deriving DecidableEq

/-- The HTTP status code of an error result, `none` on success. -/
def errorCode {α : Type} : Except ApiError α → Option Nat
  | .ok _ => none
  | .error (.http c _) => some c

/-! ### Pydantic request schemas (`sprint_schemas.py`) -/

/-- `DealCreate`: `status` is a `DealStatusEnum`, so pydantic has already
validated it to one of the six members before the handler runs. -/
structure DealCreate where
  title : PyStr
  status : DealStatus
  assigned_person_id : Option Nat
  estimated_value : Option ℚ
  budget_range_min : Option ℚ
  budget_range_max : Option ℚ

/-- State of one optional pydantic field under `dict(exclude_unset=True)`:
absent from the payload, explicitly `null`, or set to a value. -/
inductive TriField (α : Type) where
  | unset
  | null
  | set (x : α)
deriving DecidableEq

/-- `DealUpdate`: every field is `Optional`, and a field that the client
explicitly sends as `null` survives `dict(exclude_unset=True)` and is
written to the row. (Payloads that null out the non-nullable-modelled
integer field `board_position` are outside the model.) -/
structure DealUpdate where
  title : TriField PyStr
  status : TriField DealStatus
  assigned_person_id : TriField Nat
  estimated_value : TriField ℚ
  budget_range_min : TriField ℚ
  budget_range_max : TriField ℚ
  board_position : Option Int

/-- `StatusUpdateRequest`: `new_status` is a plain string. -/
structure StatusUpdateRequest where
  new_status : PyStr
  change_reason : Option PyStr
  board_position : Option Int

/-! ### Deal CRUD handlers (`sprint_api.py`) -/

/-- `sprint_api.create_deal`: the new row's `board_position` is the count
of existing deals whose status string equals the payload's status value,
and the stored status is the (str-subclass) enum's string value. `newId`
is the primary key the database assigns. -/
def create_deal (db : List DealRec) (p : DealCreate) (newId : Nat) :
    List DealRec × DealRec :=
  let max_position := (db.filter fun d => d.status = some p.status.value).length
  let deal : DealRec :=
    { id := newId
      title := p.title
      status := some p.status.value
      board_position := (max_position : Int)
      assigned_person_id := p.assigned_person_id
      estimated_value := p.estimated_value
      budget_range_min := p.budget_range_min
      budget_range_max := p.budget_range_max }
  (db ++ [deal], deal)

/-- One `setattr(deal, field, value)` pass of `sprint_api.update_deal`
over the fields present in `dict(exclude_unset=True)`. -/
def applyDealUpdate (d : DealRec) (u : DealUpdate) : DealRec :=
  { d with
    title := match u.title with
      | .unset => d.title | .null => d.title | .set v => v
    status := match u.status with
      | .unset => d.status | .null => none | .set v => some v.value
    assigned_person_id := match u.assigned_person_id with
      | .unset => d.assigned_person_id | .null => none | .set v => some v
    estimated_value := match u.estimated_value with
      | .unset => d.estimated_value | .null => none | .set v => some v
    budget_range_min := match u.budget_range_min with
      | .unset => d.budget_range_min | .null => none | .set v => some v
    budget_range_max := match u.budget_range_max with
      | .unset => d.budget_range_max | .null => none | .set v => some v
    board_position := match u.board_position with
      | none => d.board_position | some v => v }

/-- `sprint_api.update_deal`: 404 when the deal is missing, otherwise the
fields present in the payload are written to the row. (`title` is a
non-nullable column, so an explicit `null` on it would fail at commit;
the model keeps the old value on that branch, which no claim exercises.) -/
def update_deal (db : List DealRec) (deal_id : Nat) (u : DealUpdate) :
    List DealRec × Except ApiError DealRec :=
  match db.find? fun d => d.id = deal_id with
  | none => (db, .error (.http 404 (ps "Deal not found")))
  | some deal =>
      let d' := applyDealUpdate deal u
      (db.map fun x => if x.id = deal_id then d' else x, .ok d')

/-- The `role_mapping` dict of `sprint_api._get_auto_assigned_person`,
keyed by the normalized status strings. -/
def roleMapping (s : PyStr) : Option PersonRole :=
  if s = normalize_status (.enum .lead) then some .sales
  else if s = normalize_status (.enum .qualified_solution) then some .head_of_engineering
  else if s = normalize_status (.enum .qualified_delivery) then some .head_of_delivery
  else if s = normalize_status (.enum .qualified_cso) then some .cso
  else if s = normalize_status (.enum .deal) then some .sales
  else if s = normalize_status (.enum .project) then some .project_manager
  else none

/-- `sprint_api._get_auto_assigned_person`: first person with the role
mapped from the normalized status, `none` when the status maps to no role
or no person has the role. -/
def getAutoAssignedPerson (status_value : PyStr) (persons : List PersonRec) : Option Nat :=
  let normalized := pyLower status_value
  match roleMapping normalized with
  | none => none
  | some role => (persons.find? fun p => p.role = role).map (·.id)

/-- Python repr of a list of strings, as interpolated by the f-string in
the invalid-status message (`\x27` is the single-quote character). -/
def pyListRepr (xs : List PyStr) : PyStr :=
  ps "[" ++ List.intercalate (ps ", ") (xs.map fun s => ps "\x27" ++ s ++ ps "\x27") ++ ps "]"

/-- The detail string produced when an invalid status reaches
`update_deal_status`: the handler raises `HTTPException(400, ...)` inside
its own `try`, the generic `except Exception` catches it, and the
re-raised 500 embeds `str(e) = "400: <detail>"`. -/
def invalidStatusDetail (new_status : PyStr) : PyStr :=
  ps "Error updating deal status: 400: Invalid status: " ++ new_status ++
    ps ". Valid statuses: " ++ pyListRepr validStatusValues

/-- `str(e)` of the `AttributeError` raised by `normalize_status(None)`
when a NULL-status row reaches the history-logging step; the generic
handler rolls back and wraps it in a 500. -/
def noneStatusDetail : PyStr :=
  ps "Error updating deal status: \x27NoneType\x27 object has no attribute \x27value\x27"

/-- The qualified statuses whose transition triggers a placeholder
AI-insight row. -/
def qualifiedStatuses : List PyStr :=
  [normalize_status (.enum .qualified_solution),
   normalize_status (.enum .qualified_delivery),
   normalize_status (.enum .qualified_cso)]

/-- `sprint_api.update_deal_status`. The returned state reflects commit
(on success) or rollback (on any raised exception, including the
invalid-status `HTTPException(400, ...)` that the generic
`except Exception` converts into a 500). -/
def update_deal_status (db : SprintDB) (deal_id : Nat) (req : StatusUpdateRequest) :
    SprintDB × Except ApiError DealRec :=
  match db.deals.find? fun d => d.id = deal_id with
  | none => (db, .error (.http 404 (ps "Deal not found")))
  | some deal =>
    match (DealStatus.fromValue req.new_status).orElse
        (fun _ => DealStatus.fromName (pyUpper req.new_status)) with
    | none => (db, .error (.http 500 (invalidStatusDetail req.new_status)))
    | some ns =>
      match deal.status with
      | none => (db, .error (.http 500 noneStatusDetail))
      | some old_status =>
        let status_value := ns.value
        let bp : Int :=
          match req.board_position with
          | some p => p
          | none =>
              ((db.deals.filter fun d =>
                  d.status = some status_value ∧ d.id ≠ deal_id).length : Int)
        let deal' : DealRec :=
          { deal with
            status := some status_value
            board_position := bp
            assigned_person_id := getAutoAssignedPerson status_value db.persons }
        let hist : StatusHistoryRec :=
          { deal_id := deal_id
            previous_status := normalize_status (.str old_status)
            new_status := normalize_status (.enum ns)
            change_reason := req.change_reason }
        let insights :=
          if normalize_status (.enum ns) ∈ qualifiedStatuses then
            [triggerAiInsightForStatus deal_id ns]
          else []
        ({ db with
            deals := db.deals.map fun x => if x.id = deal_id then deal' else x
            history := db.history ++ [hist]
            insights := db.insights ++ insights },
         .ok deal')

/-- Whether a stored status column value is one of the six status strings. -/
def isValidStatus (s : Option PyStr) : Bool :=
  match s with
  | none => false
  | some v => decide (v ∈ validStatusValues)

theorem isValidStatus_value (e : DealStatus) : isValidStatus (some e.value) = true := by
  cases e <;> decide

/-- A deal row used to exercise claim C1. -/
def exC1deal : DealRec :=
  { id := 1, title := ps "Acme lead", status := some (ps "lead"), board_position := 0,
    assigned_person_id := none, estimated_value := none,
    budget_range_min := none, budget_range_max := none }

/-- A `DealUpdate` payload that explicitly sends `"status": null`. -/
def exC1upd : DealUpdate :=
  { title := .unset, status := .null, assigned_person_id := .unset,
    estimated_value := .unset, budget_range_min := .unset,
    budget_range_max := .unset, board_position := none }

/-- C1 counterexample -- `update_deal` applied to a deal whose status is
`"lead"` with a payload that explicitly sets `status` to `null` leaves the
row's status column NULL, which is not one of the six status strings: an
explicitly-null field survives `dict(exclude_unset=True)` and is written. -/
theorem update_deal_status_null_counterexample :
    isValidStatus exC1deal.status = true ∧
    (update_deal [exC1deal] 1 exC1upd).2.toOption.map
      (fun d => isValidStatus d.status) = some false := by
  constructor
  · decide
  · decide

/-- C1 (amended) -- `create_deal` always stores one of the six status
strings; `update_deal` preserves status validity provided the payload does
not explicitly set `status` to `null`; and `update_deal_status` preserves
status validity of every row, on success and on failure alike. -/
theorem deal_status_invariant :
    (∀ (db : List DealRec) (p : DealCreate) (newId : Nat),
      isValidStatus (create_deal db p newId).2.status = true) ∧
    (∀ (deal : DealRec) (u : DealUpdate), u.status ≠ TriField.null →
      isValidStatus deal.status = true →
      isValidStatus (applyDealUpdate deal u).status = true) ∧
    (∀ (db : List DealRec) (deal_id : Nat) (u : DealUpdate),
      u.status ≠ TriField.null →
      (∀ d ∈ db, isValidStatus d.status = true) →
      ∀ d ∈ (update_deal db deal_id u).1, isValidStatus d.status = true) ∧
    (∀ (db : SprintDB) (deal_id : Nat) (req : StatusUpdateRequest),
      (∀ d ∈ db.deals, isValidStatus d.status = true) →
      ∀ d ∈ (update_deal_status db deal_id req).1.deals,
        isValidStatus d.status = true) := by
  have hupd : ∀ (deal : DealRec) (u : DealUpdate), u.status ≠ TriField.null →
      isValidStatus deal.status = true →
      isValidStatus (applyDealUpdate deal u).status = true := by
    intro deal u hnull hvalid
    cases hs : u.status with
    | unset => simpa [applyDealUpdate, hs] using hvalid
    | null => exact absurd hs hnull
    | set v => simpa [applyDealUpdate, hs] using isValidStatus_value v
  refine ⟨fun db p newId => ?_, hupd, fun db deal_id u hnull hall d hd => ?_,
    fun db deal_id req hall d hd => ?_⟩
  · simpa [create_deal] using isValidStatus_value p.status
  · unfold update_deal at hd
    cases hfind : db.find? (fun d => d.id = deal_id) with
    | none =>
        rw [hfind] at hd
        exact hall d hd
    | some deal =>
        rw [hfind] at hd
        simp only [List.mem_map] at hd
        obtain ⟨x, hx, hdx⟩ := hd
        by_cases hid : x.id = deal_id
        · subst hdx
          simp only [hid, if_pos]
          exact hupd deal u hnull
            (hall deal (List.mem_of_find?_eq_some hfind))
        · subst hdx
          simp only [hid, if_neg, ite_false]
          exact hall x hx
  · unfold update_deal_status at hd
    split at hd
    · exact hall d hd
    · split at hd
      · exact hall d hd
      · split at hd
        · exact hall d hd
        · simp only [List.mem_map] at hd
          obtain ⟨x, hx, hdx⟩ := hd
          by_cases hid : x.id = deal_id
          · subst hdx
            simp only [hid, if_pos]
            exact isValidStatus_value _
          · subst hdx
            simp only [hid, if_neg, ite_false]
            exact hall x hx

/-- C1 (amended) witness, at a concrete create payload, update payload and
status-update request. -/
theorem deal_status_invariant_witness :
    isValidStatus (create_deal [] ⟨ps "New deal", .lead, none, none, none, none⟩ 1).2.status
      = true ∧
    isValidStatus (applyDealUpdate exC1deal
      { exC1upd with status := TriField.set .deal }).status = true ∧
    (∀ d ∈ (update_deal [exC1deal] 1 { exC1upd with status := TriField.set .deal }).1,
      isValidStatus d.status = true) ∧
    (∀ d ∈ (update_deal_status ⟨[exC1deal], [], [], []⟩ 1
        ⟨ps "deal", none, none⟩).1.deals, isValidStatus d.status = true) := by
  refine ⟨deal_status_invariant.1 [] _ 1,
    deal_status_invariant.2.1 exC1deal _ (by decide) (by decide),
    deal_status_invariant.2.2.1 [exC1deal] 1 _ (by decide)
      (by intro d hd; fin_cases hd; decide),
    deal_status_invariant.2.2.2 ⟨[exC1deal], [], [], []⟩ 1 _
      (by intro d hd; fin_cases hd; decide)⟩

/-- A one-deal database used to exercise claim C2. -/
def exC2db : SprintDB :=
  { deals := [{ id := 1, title := ps "Acme lead", status := some (ps "lead"),
                board_position := 0, assigned_person_id := none,
                estimated_value := none, budget_range_min := none,
                budget_range_max := none }],
    persons := [], history := [], insights := [] }

/-- A status-update request whose status string is invalid. -/
def exC2req : StatusUpdateRequest :=
  { new_status := ps "bogus", change_reason := none, board_position := none }

/-- C2 counterexample -- an invalid `new_status` makes `update_deal_status`
fail with HTTP 500, not HTTP 400: the handler's own
`HTTPException(status_code=400, ...)` is raised inside the `try` block and
the generic `except Exception` re-raises it as a 500. -/
theorem update_deal_status_invalid_is_500 :
    errorCode (update_deal_status exC2db 1 exC2req).2 = some 500 ∧
    errorCode (update_deal_status exC2db 1 exC2req).2 ≠ some 400 := by
  constructor
  · decide
  · decide

/-- C2 (amended) -- when `update_deal_status` receives a `new_status`
string that is neither one of the six values nor (upper-cased) one of the
six member names, it fails with an HTTP 500 error whose detail wraps the
intended 400 message listing the valid statuses, and the transaction is
rolled back: the database state (deals, history, insights) is returned
unchanged. -/
theorem update_deal_status_invalid_spec
    (db : SprintDB) (deal_id : Nat) (req : StatusUpdateRequest) (deal : DealRec)
    (hfind : db.deals.find? (fun d => d.id = deal_id) = some deal)
    (hval : DealStatus.fromValue req.new_status = none)
    (hname : DealStatus.fromName (pyUpper req.new_status) = none) :
    update_deal_status db deal_id req =
      (db, .error (.http 500 (invalidStatusDetail req.new_status))) := by
  unfold update_deal_status
  rw [hfind]
  have horelse : (DealStatus.fromValue req.new_status).orElse
      (fun _ => DealStatus.fromName (pyUpper req.new_status)) = none := by
    rw [hval, hname]
    rfl
  rw [horelse]

/-- C2 (amended) witness, at the concrete database and request of the
counterexample input. -/
theorem update_deal_status_invalid_spec_witness :
    update_deal_status exC2db 1 exC2req =
      (exC2db, .error (.http 500 (invalidStatusDetail (ps "bogus")))) :=
  update_deal_status_invalid_spec exC2db 1 exC2req
    { id := 1, title := ps "Acme lead", status := some (ps "lead"),
      board_position := 0, assigned_person_id := none,
      estimated_value := none, budget_range_min := none,
      budget_range_max := none }
    (by decide) (by decide) (by decide)

/-! ### `sprint_api.get_sprint_board` -/

/-- Python `str(x)` for the nullable status column: `str(None)` is the
string `"None"`. -/
def pyStrOfOpt (s : Option PyStr) : PyStr :=
  match s with
  | some v => v
  | none => ps "None"

/-- The sort key comparison of `status_deals.sort(key=lambda x: x.board_position)`
(Python `list.sort` is a stable mergesort). -/
def boardLe (a b : DealRec) : Bool := a.board_position ≤ b.board_position

/-- `deal.estimated_value or 0`. -/
def dealValue (d : DealRec) : ℚ := d.estimated_value.getD 0

/-- The sum of `deal.estimated_value or 0` over a list of deals. -/
def columnValue (l : List DealRec) : ℚ := (l.map dealValue).sum

/-- `status.value.replace('_', ' ').title()`. -/
def columnTitle (status : DealStatus) : PyStr :=
  pyTitle (pyReplace (Char.ofNat 95) (Char.ofNat 32) status.value)

/-- One column of the sprint-board response (`SprintBoardColumn`). -/
structure SprintBoardColumn where
  status : DealStatus
  title : PyStr
  deals : List DealRec
  count : Nat
deriving DecidableEq

/-- The sprint-board response (`SprintBoardResponse`). -/
structure SprintBoardResponse where
  columns : List SprintBoardColumn
  total_deals : Nat
  total_value : ℚ
deriving DecidableEq

/-- The deals of one board column: the deals whose status string equals the
column's status value, sorted by board position. -/
def columnStatusDeals (deals : List DealRec) (status : DealStatus) : List DealRec :=
  (deals.filter fun d => pyStrOfOpt d.status = status.value).mergeSort boardLe

/-- `sprint_api.get_sprint_board`: one column per `DealStatus` member in
declaration order; `total_value` accumulates each iteration's column value. -/
def get_sprint_board (deals : List DealRec) : SprintBoardResponse :=
  { columns := DealStatus.members.map fun status =>
      { status := status
        title := columnTitle status
        deals := columnStatusDeals deals status
        count := (columnStatusDeals deals status).length }
    total_deals := deals.length
    total_value :=
      (DealStatus.members.map fun status => columnValue (columnStatusDeals deals status)).sum }

theorem boardLe_trans : ∀ a b c : DealRec,
    boardLe a b = true → boardLe b c = true → boardLe a c = true := by
  intro a b c hab hbc
  simp only [boardLe, decide_eq_true_eq] at *
  omega

theorem boardLe_total : ∀ a b : DealRec, (boardLe a b || boardLe b a) = true := by
  intro a b
  simp only [boardLe, Bool.or_eq_true, decide_eq_true_eq]
  omega

/-- C4 -- the sprint board has one column per status in pipeline order;
each column's deals are sorted ascending by `board_position`; every deal
with a valid status string appears in exactly one column; `total_deals`
counts all deals; and `total_value` is the sum over columns of each
column's `estimated_value` sum. -/
theorem get_sprint_board_spec (deals : List DealRec) :
    ((get_sprint_board deals).columns.map (fun c => c.status) = DealStatus.members) ∧
    (∀ c ∈ (get_sprint_board deals).columns,
      c.deals.Pairwise fun a b => a.board_position ≤ b.board_position) ∧
    (∀ d ∈ deals, isValidStatus d.status = true →
      ((get_sprint_board deals).columns.countP fun c => decide (d ∈ c.deals)) = 1) ∧
    ((get_sprint_board deals).total_deals = deals.length) ∧
    ((get_sprint_board deals).total_value =
      ((get_sprint_board deals).columns.map fun c => columnValue c.deals).sum) := by
  refine ⟨rfl, ?_, ?_, rfl, ?_⟩
  · intro c hc
    simp only [get_sprint_board, List.mem_map] at hc
    obtain ⟨s, _, rfl⟩ := hc
    have h := @List.sorted_mergeSort DealRec boardLe boardLe_trans boardLe_total
      (deals.filter fun d => pyStrOfOpt d.status = s.value)
    exact h.imp fun hab => by simpa [boardLe, decide_eq_true_eq] using hab
  · intro d hd hv
    have hmem : ∀ s : DealStatus,
        d ∈ columnStatusDeals deals s ↔ pyStrOfOpt d.status = s.value := by
      intro s
      unfold columnStatusDeals
      rw [(List.mergeSort_perm _ boardLe).mem_iff, List.mem_filter]
      simp [hd]
    have hcount : ((get_sprint_board deals).columns.countP fun c => decide (d ∈ c.deals))
        = DealStatus.members.countP fun s => decide (pyStrOfOpt d.status = s.value) := by
      simp only [get_sprint_board, List.countP_map]
      apply List.countP_congr
      intro s _
      simp [Function.comp, hmem s]
    rw [hcount]
    cases hds : d.status with
    | none =>
        rw [hds] at hv
        simp [isValidStatus] at hv
    | some v =>
        rw [hds] at hv
        have hvmem : v ∈ validStatusValues := by simpa [isValidStatus] using hv
        unfold validStatusValues at hvmem
        obtain ⟨e, _, hev⟩ := List.mem_map.mp hvmem
        have hgoal : pyStrOfOpt (some v) = e.value := by
          rw [← hev]
          rfl
        rw [hgoal]
        cases e <;> decide
  · rfl

/-- A deal used to exercise claim C4. -/
def exC4deal : DealRec :=
  { id := 2, title := ps "Board deal", status := some (ps "lead"),
    board_position := 3, assigned_person_id := none,
    estimated_value := some 500, budget_range_min := none, budget_range_max := none }

/-- A one-deal list used to exercise claim C4. -/
def exC4deals : List DealRec := [exC4deal]

theorem exC4columns_len : 0 < (get_sprint_board exC4deals).columns.length := by
  simp [get_sprint_board, DealStatus.members]

/-- C4 witness, at a concrete deal list: the first column's deals are
sorted, and the concrete valid-status deal appears in exactly one column. -/
theorem get_sprint_board_spec_witness :
    ((get_sprint_board exC4deals).columns.get ⟨0, exC4columns_len⟩).deals.Pairwise
      (fun a b => a.board_position ≤ b.board_position) ∧
    ((get_sprint_board exC4deals).columns.countP fun c => decide (exC4deal ∈ c.deals)) = 1 :=
  ⟨(get_sprint_board_spec exC4deals).2.1 _ (List.get_mem _ _ _),
   (get_sprint_board_spec exC4deals).2.2.1 exC4deal (by decide) (by decide)⟩

/-! ### `sprint_api.parse_budget_value` -/

/-- Python whitespace characters (the ASCII ones recognised by `str.strip`
and by the `\s` class of the split regex). -/
def charIsWs (c : Char) : Bool :=
  c.toNat = 32 || c.toNat = 9 || c.toNat = 10 || c.toNat = 13 || c.toNat = 11 || c.toNat = 12

/-- Drop leading whitespace (Python `lstrip`). -/
def dropLeadingWs (s : PyStr) : PyStr := s.dropWhile charIsWs

/-- Drop trailing whitespace (Python `rstrip`). -/
def dropTrailingWs (s : PyStr) : PyStr := (s.reverse.dropWhile charIsWs).reverse

/-- Python `str.strip()`. -/
def pyStrip (s : PyStr) : PyStr := dropTrailingWs (dropLeadingWs s)

/-- ASCII decimal digit test. -/
def charIsDigit (c : Char) : Bool := 48 ≤ c.toNat && c.toNat ≤ 57

/-- The value of a digit string. -/
def digitsVal (ds : PyStr) : Nat := ds.foldl (fun acc c => 10 * acc + (c.toNat - 48)) 0

/-- Python `float(s)` on decimal literals: optional surrounding whitespace,
optional sign, digits with optional fraction part, optional exponent;
`none` models the raised `ValueError`. (Exotic accepted spellings such as
`inf`, `nan` and underscore separators are outside the model.) -/
def pyFloat (s : PyStr) : Option ℚ :=
  let t := pyStrip s
  let signAndRest : ℚ × PyStr :=
    match t with
    | c :: rest =>
        if c = '+' then (1, rest)
        else if c = '-' then (-1, rest)
        else (1, t)
    | [] => (1, [])
  let sgn := signAndRest.1
  let ipSplit := signAndRest.2.span charIsDigit
  let ip := ipSplit.1
  let fracSplit : PyStr × PyStr :=
    match ipSplit.2 with
    | c :: rest => if c = '.' then rest.span charIsDigit else ([], ipSplit.2)
    | [] => ([], [])
  let fp := fracSplit.1
  if ip = [] ∧ fp = [] then none
  else
    let mantissa : ℚ := (digitsVal ip : ℚ) + (digitsVal fp : ℚ) / (10 ^ fp.length)
    match fracSplit.2 with
    | [] => some (sgn * mantissa)
    | c :: rest =>
        if c = 'e' ∨ c = 'E' then
          let esignAndRest : ℤ × PyStr :=
            match rest with
            | d :: r2 =>
                if d = '+' then (1, r2)
                else if d = '-' then (-1, r2)
                else (1, rest)
            | [] => (1, [])
          let eds := esignAndRest.2.span charIsDigit
          if eds.1 = [] ∨ eds.2 ≠ [] then none
          else some (sgn * mantissa * (10 : ℚ) ^ (esignAndRest.1 * (digitsVal eds.1 : ℤ)))
        else none

/-- `sprint_api._convert_to_number`: strips and lower-cases, scales a
trailing `k` by 1000 and a trailing `m` by 1000000, otherwise `float(s)`;
`none` models a raised conversion error. -/
def convert_to_number (s : PyStr) : Option ℚ :=
  let v := pyLower (pyStrip s)
  match v.getLast? with
  | some c =>
      if c = 'k' then (pyFloat v.dropLast).map (· * 1000)
      else if c = 'm' then (pyFloat v.dropLast).map (· * 1000000)
      else pyFloat v
  | none => pyFloat v

/-- Remove every occurrence of a character (Python `str.replace(ch, '')`). -/
def pyRemoveChar (ch : Char) (s : PyStr) : PyStr := s.filter (· ≠ ch)

/-- The cleaning step of `parse_budget_value`:
`str(budget_str).replace('$', '').replace(',', '').replace(' ', '').lower()`. -/
def budgetClean (s : PyStr) : PyStr :=
  pyLower (pyRemoveChar ' ' (pyRemoveChar ',' (pyRemoveChar '$' s)))

/-- Tail of `re.split(r'\s*-\s*', s)`: middle parts lose whitespace on both
sides (absorbed by the separators around them), the last part loses only
leading whitespace. -/
def reSplitDashAux : List PyStr → List PyStr
  | [] => []
  | [q] => [dropLeadingWs q]
  | q :: rest => dropLeadingWs (dropTrailingWs q) :: reSplitDashAux rest

/-- `re.split(r'\s*-\s*', s)`: split on hyphens, with the whitespace
adjacent to each hyphen absorbed by the separator. -/
def reSplitDash (s : PyStr) : List PyStr :=
  match s.splitOn '-' with
  | [] => []
  | [q] => [q]
  | q :: rest => dropTrailingWs q :: reSplitDashAux rest

/-- The argument of `parse_budget_value`: `None`, a number, or a string. -/
inductive BudgetInput where
  | null
  | num (x : ℚ)
  | str (s : PyStr)

/-- `sprint_api.parse_budget_value`: 0.0 for falsy input, `float(x)` for
numeric input; for a string, the average of a two-part hyphen range whose
parts both convert, else the single converted value, else 0.0. -/
def parse_budget_value : BudgetInput → ℚ
  | .null => 0
  | .num x => if x = 0 then 0 else x
  | .str s =>
      if s = [] then 0
      else
        let cleaned := budgetClean s
        let rangeResult : Option ℚ :=
          if (ps " - " <:+: cleaned) ∨ '-' ∈ cleaned then
            match reSplitDash cleaned with
            | [a, b] =>
                match convert_to_number a, convert_to_number b with
                | some lo, some hi => some ((lo + hi) / 2)
                | _, _ => none
            | _ => none
          else none
        match rangeResult with
        | some v => v
        | none => (convert_to_number cleaned).getD 0


theorem dropWhile_eq_self_of_none {p : Char → Bool} (l : PyStr)
    (h : ∀ c ∈ l, p c = false) : l.dropWhile p = l := by
  cases l with
  | nil => rfl
  | cons c t =>
      rw [List.dropWhile_cons, if_neg]
      simp [h c (List.mem_cons_self _ _)]

theorem pyStrip_eq_self (s : PyStr) (h : ∀ c ∈ s, charIsWs c = false) :
    pyStrip s = s := by
  unfold pyStrip dropLeadingWs dropTrailingWs
  rw [dropWhile_eq_self_of_none s h,
    dropWhile_eq_self_of_none s.reverse (fun c hc => h c (List.mem_reverse.mp hc)),
    List.reverse_reverse]

theorem pyLower_eq_self (s : PyStr) (h : ∀ c ∈ s, charLower c = c) :
    pyLower s = s := by
  unfold pyLower
  rw [List.map_congr_left h]
  exact List.map_id s

theorem span_all_pos {p : Char → Bool} (l : PyStr) (h : ∀ c ∈ l, p c = true) :
    l.span p = (l, []) := by
  rw [List.span_eq_take_drop, List.takeWhile_eq_self_iff.mpr h,
    List.dropWhile_eq_nil_iff.mpr h]

theorem span_append_stop {p : Char → Bool} (a : PyStr) (c : Char) (rest : PyStr)
    (ha : ∀ x ∈ a, p x = true) (hc : p c = false) :
    (a ++ c :: rest).span p = (a, c :: rest) := by
  induction a with
  | nil =>
      rw [List.nil_append, List.span_eq_take_drop, List.takeWhile_cons, if_neg (by simp [hc]),
        List.dropWhile_cons, if_neg (by simp [hc])]
  | cons x xs ih =>
      have hx : p x = true := ha x (List.mem_cons_self _ _)
      have ih' := ih fun y hy => ha y (List.mem_cons_of_mem x hy)
      rw [List.span_eq_take_drop] at ih' ⊢
      rw [List.cons_append, List.takeWhile_cons, if_pos (by simp [hx]),
        List.dropWhile_cons, if_pos (by simp [hx])]
      simpa using ih'

theorem charIsDigit_not_ws (c : Char) (h : charIsDigit c = true) : charIsWs c = false := by
  simp only [charIsDigit, Bool.and_eq_true, decide_eq_true_eq] at h
  simp only [charIsWs]
  simp only [Bool.or_eq_false_iff, decide_eq_false_iff_not]
  omega

theorem charIsDigit_lower (c : Char) (h : charIsDigit c = true) : charLower c = c := by
  simp only [charIsDigit, Bool.and_eq_true, decide_eq_true_eq] at h
  unfold charLower
  rw [if_neg]
  omega

theorem charIsDigit_ne (c : Char) (d : Char) (h : charIsDigit c = true)
    (hd : charIsDigit d = false) : c ≠ d := by
  intro he
  subst he
  rw [h] at hd
  simp at hd

/-- `float` of a nonempty all-digit string is its digit value. -/
theorem pyFloat_digits (s : PyStr) (hne : s ≠ []) (hd : ∀ c ∈ s, charIsDigit c = true) :
    pyFloat s = some ((digitsVal s : ℚ)) := by
  obtain ⟨c, rest, rfl⟩ := List.exists_cons_of_ne_nil hne
  have hc : charIsDigit c = true := hd c (List.mem_cons_self _ _)
  have hplus : ¬ (c = '+') := charIsDigit_ne c '+' hc (by decide)
  have hminus : ¬ (c = '-') := charIsDigit_ne c '-' hc (by decide)
  have hspan : (c :: rest).span charIsDigit = (c :: rest, []) := span_all_pos _ hd
  unfold pyFloat
  rw [pyStrip_eq_self _ (fun x hx => charIsDigit_not_ws x (hd x hx))]
  simp only [if_neg hplus, if_neg hminus, hspan]
  rw [if_neg (by simp)]
  simp only [digitsVal, List.foldl_nil, List.length_nil, Nat.cast_zero, pow_zero]
  norm_num

/-- `_convert_to_number` on a nonempty all-digit string. -/
theorem convert_to_number_digits (s : PyStr) (hne : s ≠ [])
    (hd : ∀ c ∈ s, charIsDigit c = true) :
    convert_to_number s = some ((digitsVal s : ℚ)) := by
  have hself : pyLower (pyStrip s) = s := by
    rw [pyStrip_eq_self _ (fun x hx => charIsDigit_not_ws x (hd x hx))]
    exact pyLower_eq_self _ (fun x hx => charIsDigit_lower x (hd x hx))
  have hgl : s.getLast? = some (s.getLast hne) := List.getLast?_eq_getLast s hne
  have hcd : charIsDigit (s.getLast hne) = true := hd _ (List.getLast_mem hne)
  unfold convert_to_number
  rw [hself]
  simp only [hgl]
  rw [if_neg (charIsDigit_ne _ 'k' hcd (by decide)),
    if_neg (charIsDigit_ne _ 'm' hcd (by decide))]
  exact pyFloat_digits s hne hd

/-- `_convert_to_number` of an all-digit string with a trailing `k`. -/
theorem convert_to_number_digits_k (d : PyStr) (hne : d ≠ [])
    (hd : ∀ c ∈ d, charIsDigit c = true) :
    convert_to_number (d ++ [ 'k' ]) = some ((digitsVal d : ℚ) * 1000) := by
  have hself : pyLower (pyStrip (d ++ [ 'k' ])) = d ++ [ 'k' ] := by
    have hnws : ∀ x ∈ d ++ [ 'k' ], charIsWs x = false := by
      intro x hx
      rcases List.mem_append.mp hx with h | h
      · exact charIsDigit_not_ws x (hd x h)
      · rw [List.mem_singleton.mp h]
        decide
    have hnl : ∀ x ∈ d ++ [ 'k' ], charLower x = x := by
      intro x hx
      rcases List.mem_append.mp hx with h | h
      · exact charIsDigit_lower x (hd x h)
      · rw [List.mem_singleton.mp h]
        decide
    rw [pyStrip_eq_self _ hnws]
    exact pyLower_eq_self _ hnl
  unfold convert_to_number
  rw [hself]
  simp only [List.getLast?_concat, List.dropLast_concat, pyFloat_digits d hne hd,
    reduceIte]
  rfl

/-- `float` of a decimal string `a.b` with nonempty all-digit integer part
and all-digit fraction part. -/
theorem pyFloat_decimal (a b : PyStr) (hane : a ≠ [])
    (ha : ∀ c ∈ a, charIsDigit c = true) (hb : ∀ c ∈ b, charIsDigit c = true) :
    pyFloat (a ++ '.' :: b) =
      some ((digitsVal a : ℚ) + (digitsVal b : ℚ) / 10 ^ b.length) := by
  obtain ⟨c, rest, rfl⟩ := List.exists_cons_of_ne_nil hane
  have hc : charIsDigit c = true := ha c (List.mem_cons_self _ _)
  have hplus : ¬ (c = '+') := charIsDigit_ne c '+' hc (by decide)
  have hminus : ¬ (c = '-') := charIsDigit_ne c '-' hc (by decide)
  have hnws : ∀ x ∈ (c :: rest) ++ '.' :: b, charIsWs x = false := by
    intro x hx
    rcases List.mem_append.mp hx with h | h
    · exact charIsDigit_not_ws x (ha x h)
    · rcases List.mem_cons.mp h with h1 | h1
      · rw [h1]
        decide
      · exact charIsDigit_not_ws x (hb x h1)
  have hspan1 : ((c :: rest) ++ '.' :: b).span charIsDigit = (c :: rest, '.' :: b) :=
    span_append_stop _ _ _ ha (by decide)
  have hspan2 : b.span charIsDigit = (b, []) := span_all_pos _ hb
  unfold pyFloat
  rw [pyStrip_eq_self _ hnws]
  simp only [List.cons_append, if_neg hplus, if_neg hminus]
  rw [← List.cons_append]
  simp only [hspan1, reduceIte, hspan2]
  rw [if_neg (by simp)]
  norm_num

/-- `_convert_to_number` with a trailing `m` scales by one million. -/
theorem convert_to_number_m (d : PyStr) (q : ℚ)
    (hws : ∀ c ∈ d, charIsWs c = false) (hlow : ∀ c ∈ d, charLower c = c)
    (hf : pyFloat d = some q) :
    convert_to_number (d ++ [ 'm' ]) = some (q * 1000000) := by
  have hself : pyLower (pyStrip (d ++ [ 'm' ])) = d ++ [ 'm' ] := by
    have hnws : ∀ x ∈ d ++ [ 'm' ], charIsWs x = false := by
      intro x hx
      rcases List.mem_append.mp hx with h | h
      · exact hws x h
      · rw [List.mem_singleton.mp h]
        decide
    have hnl : ∀ x ∈ d ++ [ 'm' ], charLower x = x := by
      intro x hx
      rcases List.mem_append.mp hx with h | h
      · exact hlow x h
      · rw [List.mem_singleton.mp h]
        decide
    rw [pyStrip_eq_self _ hnws]
    exact pyLower_eq_self _ hnl
  unfold convert_to_number
  rw [hself]
  simp only [List.getLast?_concat, List.dropLast_concat, hf, reduceIte]
  rfl

/-- C5 -- `parse_budget_value` returns 0.0 for `None`, the empty string,
numeric 0 or an unparseable string, `float(x)` for numeric input, the mean
of the two converted endpoints for a two-part hyphen-separated range
(endpoints scaled by 1000 for a trailing `k` and by 1000000 for a trailing
`m`, as `convert_to_number` does), and the single converted value for a
non-range string; `'$252k - $327k'` yields 289500.0 and `'$150,000'`
yields 150000.0. -/
theorem parse_budget_value_spec :
    (parse_budget_value .null = 0) ∧
    (parse_budget_value (.str (ps "")) = 0) ∧
    (parse_budget_value (.num 0) = 0) ∧
    (∀ x : ℚ, parse_budget_value (.num x) = x) ∧
    (∀ (s a b : PyStr) (lo hi : ℚ), s ≠ [] →
      ((ps " - " <:+: budgetClean s) ∨ '-' ∈ budgetClean s) →
      reSplitDash (budgetClean s) = [a, b] →
      convert_to_number a = some lo → convert_to_number b = some hi →
      parse_budget_value (.str s) = (lo + hi) / 2) ∧
    (∀ s : PyStr, s ≠ [] →
      ¬ ((ps " - " <:+: budgetClean s) ∨ '-' ∈ budgetClean s) →
      parse_budget_value (.str s) = (convert_to_number (budgetClean s)).getD 0) ∧
    (convert_to_number (ps "252k") = some 252000) ∧
    (convert_to_number (ps "1.5m") = some 1500000) ∧
    (parse_budget_value (.str (ps "$252k - $327k")) = 289500) ∧
    (parse_budget_value (.str (ps "$150,000")) = 150000) ∧
    (parse_budget_value (.str (ps "unparseable")) = 0) := by
  have hrange : ∀ (s a b : PyStr) (lo hi : ℚ), s ≠ [] →
      ((ps " - " <:+: budgetClean s) ∨ '-' ∈ budgetClean s) →
      reSplitDash (budgetClean s) = [a, b] →
      convert_to_number a = some lo → convert_to_number b = some hi →
      parse_budget_value (.str s) = (lo + hi) / 2 := by
    intro s a b lo hi hne hdash hsplit hlo hhi
    have hsne : ¬ s = [] := hne
    simp only [parse_budget_value, if_neg hsne, if_pos hdash, hsplit, hlo, hhi]
  have hsingle : ∀ s : PyStr, s ≠ [] →
      ¬ ((ps " - " <:+: budgetClean s) ∨ '-' ∈ budgetClean s) →
      parse_budget_value (.str s) = (convert_to_number (budgetClean s)).getD 0 := by
    intro s hne hnodash
    have hsne : ¬ s = [] := hne
    simp only [parse_budget_value, if_neg hsne, if_neg hnodash]
  have h252 : convert_to_number (ps "252k") = some 252000 := by
    rw [show ps "252k" = ps "252" ++ [ 'k' ] from by decide,
      convert_to_number_digits_k _ (by decide) (by decide),
      show digitsVal (ps "252") = 252 from by decide]
    norm_num
  have h327 : convert_to_number (ps "327k") = some 327000 := by
    rw [show ps "327k" = ps "327" ++ [ 'k' ] from by decide,
      convert_to_number_digits_k _ (by decide) (by decide),
      show digitsVal (ps "327") = 327 from by decide]
    norm_num
  have h15m : convert_to_number (ps "1.5m") = some 1500000 := by
    rw [show ps "1.5m" = (ps "1" ++ '.' :: ps "5") ++ [ 'm' ] from by decide,
      convert_to_number_m _ _ (by decide) (by decide)
        (pyFloat_decimal (ps "1") (ps "5") (by decide) (by decide) (by decide)),
      show digitsVal (ps "1") = 1 from by decide,
      show digitsVal (ps "5") = 5 from by decide,
      show (ps "5").length = 1 from by decide]
    norm_num
  have h150 : convert_to_number (ps "150000") = some 150000 := by
    rw [convert_to_number_digits _ (by decide) (by decide),
      show digitsVal (ps "150000") = 150000 from by decide]
    norm_num
  refine ⟨rfl, rfl, rfl, ?_, hrange, hsingle, h252, h15m, ?_, ?_, ?_⟩
  · intro x
    by_cases hx : x = 0
    · subst hx
      rfl
    · simp [parse_budget_value, hx]
  · rw [hrange (ps "$252k - $327k") (ps "252k") (ps "327k") 252000 327000
      (by decide) (Or.inr (by decide)) (by decide) h252 h327]
    norm_num
  · rw [hsingle (ps "$150,000") (by decide) (by decide),
      show budgetClean (ps "$150,000") = ps "150000" from by decide, h150]
    rfl
  · rw [hsingle (ps "unparseable") (by decide) (by decide)]
    rfl

/-- C5 witness, at a concrete numeric input and a concrete non-range
string input. -/
theorem parse_budget_value_spec_witness :
    parse_budget_value (.num 7) = 7 ∧
    parse_budget_value (.str (ps "abc")) =
      (convert_to_number (budgetClean (ps "abc"))).getD 0 :=
  ⟨parse_budget_value_spec.2.2.2.1 7,
   parse_budget_value_spec.2.2.2.2.2.1 (ps "abc") (by decide) (by decide)⟩

/-! ### `ai_agents/lead_qualification_agent.py`

`LeadQualificationAgent.analyze_lead` and its helpers. The chat-completion
call is modelled by an `AIOutcome` (it raises, or returns response text);
`json.loads` is modelled by an arbitrary function into `LoadResult`
(decode error, a non-dict JSON value whose `.get` raises `AttributeError`
in `_standardize_response`, or a dict). Python truthiness of the dict
values is explicit: `None`, `0` and `''` are falsy. -/

/-- Truthiness of an optional numeric CRM field. -/
def pyTruthyQ : Option ℚ → Bool
  | none => false
  | some x => decide (x ≠ 0)

/-- Truthiness of an optional string CRM field. -/
def pyTruthyS : Option PyStr → Bool
  | none => false
  | some s => decide (s ≠ [])

/-- The `customer_data` dict keys the agent reads. -/
structure CustomerData where
  budget_range_min : Option ℚ
  budget_range_max : Option ℚ
  estimated_value : Option ℚ
  Decision_Maker_Role : Option PyStr
deriving DecidableEq

/-- The `conversation_data` dict keys the agent reads. -/
structure ConversationDict where
  decision_makers : Option PyStr
  business_goals : Option PyStr
  pain_points : Option PyStr
  customer_requirements : Option PyStr
  project_timeline : Option PyStr
  urgency_level : Option PyStr
  tech_preferences : Option PyStr
  team_size : Option PyStr
deriving DecidableEq

/-- The budget condition of `_fallback_calculate_score` (25 points). -/
def budgetInfoCond (c : CustomerData) : Bool :=
  (pyTruthyQ c.budget_range_min && pyTruthyQ c.budget_range_max) || pyTruthyQ c.estimated_value

/-- The authority condition (20 points). -/
def authorityInfoCond (c : CustomerData) (v : ConversationDict) : Bool :=
  pyTruthyS v.decision_makers || pyTruthyS c.Decision_Maker_Role

/-- The need condition used by `_fallback_calculate_score` (25 points):
goals, pain points or customer requirements. -/
def needScoreCond (v : ConversationDict) : Bool :=
  pyTruthyS v.business_goals || pyTruthyS v.pain_points || pyTruthyS v.customer_requirements

/-- The need condition used by `_fallback_identify_missing`: goals or pain
points only (it does not look at `customer_requirements`). -/
def needMissingCond (v : ConversationDict) : Bool :=
  pyTruthyS v.business_goals || pyTruthyS v.pain_points

/-- The timeline condition (15 points). -/
def timelineInfoCond (v : ConversationDict) : Bool :=
  pyTruthyS v.project_timeline || pyTruthyS v.urgency_level

/-- The fit condition (15 points). -/
def fitInfoCond (v : ConversationDict) : Bool :=
  pyTruthyS v.tech_preferences || pyTruthyS v.team_size

/-- `LeadQualificationAgent._fallback_calculate_score`. -/
def fallbackCalculateScore (c : CustomerData) (v : ConversationDict) : ℚ :=
  (if budgetInfoCond c then 25 else 0) +
  (if authorityInfoCond c v then 20 else 0) +
  (if needScoreCond v then 25 else 0) +
  (if timelineInfoCond v then 15 else 0) +
  (if fitInfoCond v then 15 else 0)

/-- `LeadQualificationAgent._fallback_identify_missing`. -/
def fallbackIdentifyMissing (c : CustomerData) (v : ConversationDict) : List PyStr :=
  (if ¬ budgetInfoCond c then [ps "budget"] else []) ++
  (if ¬ authorityInfoCond c v then [ps "authority"] else []) ++
  (if ¬ needMissingCond v then [ps "need"] else []) ++
  (if ¬ timelineInfoCond v then [ps "timeline"] else []) ++
  (if ¬ fitInfoCond v then [ps "fit"] else [])

/-- The `question_map` of `_fallback_generate_questions`. -/
def fallbackQuestionFor (m : PyStr) : Option PyStr :=
  if m = ps "budget" then some (ps "What budget range have you allocated for this project?")
  else if m = ps "authority" then some (ps "Who has the authority to approve this investment?")
  else if m = ps "need" then some (ps "What specific challenges are you trying to solve?")
  else if m = ps "timeline" then some (ps "When do you need this solution implemented?")
  else if m = ps "fit" then some (ps "Do you have any specific technology preferences?")
  else none

/-- `_fallback_generate_questions`: questions for the first three missing
categories. -/
def fallbackGenerateQuestions (missing : List PyStr) : List PyStr :=
  (missing.take 3).filterMap fallbackQuestionFor

/-- `_fallback_next_steps`. -/
def fallbackNextSteps (score : ℚ) (missing : List PyStr) : List PyStr :=
  ((if ps "budget" ∈ missing then [ps "Budget Discussion"] else []) ++
   (if ps "authority" ∈ missing then [ps "Stakeholder Meeting"] else []) ++
   (if score ≥ 50 then [ps "Technical Demo"] else []) ++
   (if score ≥ 75 then [ps "Proposal Preparation"] else [])).take 3

/-- `_fallback_generate_recommendations`. -/
def fallbackGenerateRecommendations (score : ℚ) (missing : List PyStr) : List PyStr :=
  ((if score < 40 then
      [ps "Focus on discovery and qualification before moving forward",
       ps "Schedule comprehensive discovery call"]
    else if score ≥ 60 then
      [ps "Well-qualified lead - move to solution presentation",
       ps "Prepare customized demo"]
    else
      [ps "Continue qualification process",
       ps "Address missing information areas"]) ++
   (if ps "budget" ∈ missing then [ps "Priority: Establish budget and financial authority"] else []) ++
   (if ps "authority" ∈ missing then [ps "Priority: Identify key decision-makers"] else []) ++
   (if ps "need" ∈ missing then [ps "Priority: Understand business requirements"] else [])).take 4

/-- The analysis dictionary the agent returns. -/
structure AnalysisDict where
  qualification_score : ℚ
  qualification_level : PyStr
  missing_information : List PyStr
  suggested_questions : List PyStr
  next_steps : List PyStr
  recommendations : List PyStr
  confidence : ℚ
deriving DecidableEq

/-- The score-to-level thresholds (76, 51, 26) shared by the fallback and
by `_standardize_response`. -/
def scoreToLevel (score : ℚ) : PyStr :=
  if score ≥ 76 then ps "Qualified"
  else if score ≥ 51 then ps "Hot"
  else if score ≥ 26 then ps "Warm"
  else ps "Cold"

/-- `LeadQualificationAgent._fallback_analyze_lead`. -/
def fallbackAnalyzeLead (c : CustomerData) (v : ConversationDict) : AnalysisDict :=
  let score := fallbackCalculateScore c v
  let missing := fallbackIdentifyMissing c v
  { qualification_score := score
    qualification_level := scoreToLevel score
    missing_information := missing
    suggested_questions := fallbackGenerateQuestions missing
    next_steps := fallbackNextSteps score missing
    recommendations := fallbackGenerateRecommendations score missing
    confidence := 70 }

/-- `float(x)` applied to a JSON value: a number, or a raised conversion
error. -/
inductive JNum where
  | val (q : ℚ)
  | err
deriving DecidableEq

/-- The keys of a parsed JSON dict that `_standardize_response` reads
(`none` = key absent, handled by the `.get` defaults). -/
structure ParsedResponse where
  qualification_score : Option JNum
  qualification_level : Option PyStr
  missing_information : Option (List PyStr)
  suggested_questions : Option (List PyStr)
  next_steps : Option (List PyStr)
  recommendations : Option (List PyStr)
  confidence : Option JNum
deriving DecidableEq

/-- `float(parsed.get(key, default))`: the default when the key is absent,
the number when present, a raised error when `float` fails on the value. -/
def jfloatD (d : ℚ) : Option JNum → Except Unit ℚ
  | none => .ok d
  | some (.val q) => .ok q
  | some .err => .error ()

/-- The four valid qualification levels. -/
def validLevels : List PyStr := [ps "Cold", ps "Warm", ps "Hot", ps "Qualified"]

/-- `LeadQualificationAgent._standardize_response`: clamps the scores to
[0, 100] and replaces an invalid level using the score thresholds; raises
(`.error`) when a `float` conversion fails. -/
def standardizeResponse (p : ParsedResponse) : Except Unit AnalysisDict := do
  let score ← jfloatD 0 p.qualification_score
  let conf ← jfloatD 50 p.confidence
  let level0 := p.qualification_level.getD (ps "Cold")
  let score1 := max 0 (min 100 score)
  let conf1 := max 0 (min 100 conf)
  pure
    { qualification_score := score1
      qualification_level := if level0 ∈ validLevels then level0 else scoreToLevel score1
      missing_information := p.missing_information.getD []
      suggested_questions := p.suggested_questions.getD []
      next_steps := p.next_steps.getD []
      recommendations := p.recommendations.getD []
      confidence := conf1 }

/-- The outcome of the `chat.completions.create` call. -/
inductive AIOutcome where
  | apiError
  | responds (text : PyStr)

/-- The outcome of `json.loads` on a string: a decode error, a non-dict
JSON value (on which `.get` raises `AttributeError` afterwards), or a
dict. -/
inductive LoadResult where
  | jsonError
  | nonDict
  | dict (p : ParsedResponse)

/-- `re.search(r'\{.*\}', s, re.DOTALL)`: the greedy match runs from the
first opening brace to the last closing brace after it. -/
def regexExtractJson (s : PyStr) : Option PyStr :=
  match s.findIdx? (fun c => c = Char.ofNat 123) with
  | none => none
  | some i =>
      match s.reverse.findIdx? (fun c => c = Char.ofNat 125) with
      | none => none
      | some jr =>
          let j := s.length - 1 - jr
          if i < j then some ((s.drop i).take (j - i + 1)) else none

/-- `LeadQualificationAgent._parse_ai_response`: extract JSON with the
regex (else parse the whole response), standardize it; on a
`json.JSONDecodeError`, fall back to the rule-based analysis when enabled;
other exceptions propagate. The `Bool` error payload of the inner `try`
distinguishes `JSONDecodeError` (`true`) from other exceptions. -/
def parseAiResponse (fallback_enabled : Bool) (loads : PyStr → LoadResult)
    (text : PyStr) (c : CustomerData) (v : ConversationDict) :
    Except Unit AnalysisDict :=
  let tryBlock : Except Bool AnalysisDict :=
    match (match regexExtractJson text with
           | some j => loads j
           | none => loads text) with
    | .jsonError => .error true
    | .nonDict => .error false
    | .dict p => (standardizeResponse p).mapError fun _ => false
  match tryBlock with
  | .ok a => .ok a
  | .error true => if fallback_enabled then .ok (fallbackAnalyzeLead c v) else .error ()
  | .error false => .error ()

/-- `LeadQualificationAgent._ai_analyze_lead`: the API call may raise,
otherwise its response text is parsed. -/
def aiAnalyzeLead (fallback_enabled : Bool) (loads : PyStr → LoadResult)
    (outcome : AIOutcome) (c : CustomerData) (v : ConversationDict) :
    Except Unit AnalysisDict :=
  match outcome with
  | .apiError => .error ()
  | .responds t => parseAiResponse fallback_enabled loads t c v

/-- `LeadQualificationAgent.analyze_lead`: try the AI analysis, and on any
exception return the rule-based fallback when it is enabled. -/
def analyze_lead (fallback_enabled : Bool) (loads : PyStr → LoadResult)
    (outcome : AIOutcome) (c : CustomerData) (v : ConversationDict) :
    Except Unit AnalysisDict :=
  match aiAnalyzeLead fallback_enabled loads outcome c v with
  | .ok a => .ok a
  | .error e => if fallback_enabled then .ok (fallbackAnalyzeLead c v) else .error e

/-- C3 -- with fallback enabled, `analyze_lead` never raises; when the
chat-completion call raises, and when no JSON object is extracted by the
regex and the whole response fails to load as JSON, the result equals the
rule-based fallback analysis of the same inputs. -/
theorem analyze_lead_fallback_spec :
    (∀ (loads : PyStr → LoadResult) (c : CustomerData) (v : ConversationDict),
      analyze_lead true loads .apiError c v = .ok (fallbackAnalyzeLead c v)) ∧
    (∀ (loads : PyStr → LoadResult) (t : PyStr) (c : CustomerData) (v : ConversationDict),
      regexExtractJson t = none → loads t = .jsonError →
      analyze_lead true loads (.responds t) c v = .ok (fallbackAnalyzeLead c v)) ∧
    (∀ (loads : PyStr → LoadResult) (outcome : AIOutcome)
      (c : CustomerData) (v : ConversationDict),
      (analyze_lead true loads outcome c v).isOk = true) := by
  refine ⟨fun loads c v => rfl, ?_, ?_⟩
  · intro loads t c v hre hld
    unfold analyze_lead aiAnalyzeLead parseAiResponse
    simp only [hre, hld]
    rfl
  · intro loads outcome c v
    unfold analyze_lead
    cases h : aiAnalyzeLead true loads outcome c v with
    | ok a => rfl
    | error e => rfl

/-- C3 witness: a concrete response with no extractable JSON that also
fails whole-string parsing yields exactly the fallback analysis. -/
theorem analyze_lead_fallback_spec_witness :
    analyze_lead true (fun _ => LoadResult.jsonError)
      (.responds (ps "no json here"))
      ⟨none, none, none, none⟩
      ⟨none, none, none, none, none, none, none, none⟩ =
      .ok (fallbackAnalyzeLead ⟨none, none, none, none⟩
        ⟨none, none, none, none, none, none, none, none⟩) :=
  analyze_lead_fallback_spec.2.1 _ _ _ _ (by decide) rfl

theorem scoreToLevel_mem (q : ℚ) : scoreToLevel q ∈ validLevels := by
  unfold scoreToLevel
  split_ifs <;> decide

theorem fallbackScore_bounds (c : CustomerData) (v : ConversationDict) :
    0 ≤ fallbackCalculateScore c v ∧ fallbackCalculateScore c v ≤ 100 := by
  unfold fallbackCalculateScore
  split_ifs <;> norm_num

theorem standardize_bounds (p : ParsedResponse) (a : AnalysisDict)
    (h : standardizeResponse p = .ok a) :
    0 ≤ a.qualification_score ∧ a.qualification_score ≤ 100 ∧
    0 ≤ a.confidence ∧ a.confidence ≤ 100 ∧
    a.qualification_level ∈ validLevels := by
  unfold standardizeResponse at h
  cases hs : jfloatD 0 p.qualification_score with
  | error e => rw [hs] at h; simp [Bind.bind, Except.bind] at h
  | ok score =>
      rw [hs] at h
      cases hc : jfloatD 50 p.confidence with
      | error e => rw [hc] at h; simp [Bind.bind, Except.bind] at h
      | ok conf =>
          rw [hc] at h
          simp only [Bind.bind, Except.bind, pure, Except.pure, Except.ok.injEq] at h
          subst h
          refine ⟨le_max_left 0 _, ?_, le_max_left 0 _, ?_, ?_⟩
          · exact max_le (by norm_num) (min_le_left 100 score)
          · exact max_le (by norm_num) (min_le_left 100 conf)
          · by_cases hl : p.qualification_level.getD (ps "Cold") ∈ validLevels
            · simp only [hl, if_pos]
            · simpa [hl] using scoreToLevel_mem _

theorem analyze_lead_ok_origin (fe : Bool) (loads : PyStr → LoadResult)
    (outcome : AIOutcome) (c : CustomerData) (v : ConversationDict)
    (a : AnalysisDict) (h : analyze_lead fe loads outcome c v = .ok a) :
    (∃ p, standardizeResponse p = .ok a) ∨ a = fallbackAnalyzeLead c v := by
  unfold analyze_lead at h
  cases hai : aiAnalyzeLead fe loads outcome c v with
  | error e =>
      simp only [hai] at h
      split at h
      · right
        injection h with hh
        exact hh.symm
      · exact Except.noConfusion h
  | ok b =>
      simp only [hai, Except.ok.injEq] at h
      subst h
      unfold aiAnalyzeLead at hai
      cases outcome with
      | apiError => simp at hai
      | responds t =>
          unfold parseAiResponse at hai
          cases hl : (match regexExtractJson t with
              | some j => loads j
              | none => loads t) with
          | jsonError =>
              simp only [hl] at hai
              split at hai
              · right
                injection hai with hh
                exact hh.symm
              · exact Except.noConfusion hai
          | nonDict =>
              simp only [hl] at hai
              exact Except.noConfusion hai
          | dict p =>
              simp only [hl] at hai
              cases hs : standardizeResponse p with
              | error e =>
                  rw [hs] at hai
                  simp [Except.mapError] at hai
              | ok x =>
                  rw [hs] at hai
                  simp only [Except.mapError, Except.ok.injEq] at hai
                  exact Or.inl ⟨p, by rw [hs, hai]⟩

/-- C8 -- whenever `analyze_lead` returns (AI path via
`_standardize_response`, or fallback path), the returned analysis has
`qualification_score` and `confidence` in [0, 100] and
`qualification_level` in {Cold, Warm, Hot, Qualified}. -/
theorem analyze_lead_result_ranges (fe : Bool) (loads : PyStr → LoadResult)
    (outcome : AIOutcome) (c : CustomerData) (v : ConversationDict)
    (a : AnalysisDict) (h : analyze_lead fe loads outcome c v = .ok a) :
    0 ≤ a.qualification_score ∧ a.qualification_score ≤ 100 ∧
    0 ≤ a.confidence ∧ a.confidence ≤ 100 ∧
    a.qualification_level ∈ validLevels := by
  rcases analyze_lead_ok_origin fe loads outcome c v a h with ⟨p, hp⟩ | rfl
  · exact standardize_bounds p a hp
  · obtain ⟨h0, h100⟩ := fallbackScore_bounds c v
    have hc1 : (fallbackAnalyzeLead c v).confidence = 70 := rfl
    have hs1 : (fallbackAnalyzeLead c v).qualification_score =
        fallbackCalculateScore c v := rfl
    have hl1 : (fallbackAnalyzeLead c v).qualification_level =
        scoreToLevel (fallbackCalculateScore c v) := rfl
    rw [hc1, hs1, hl1]
    exact ⟨h0, h100, by norm_num, by norm_num, scoreToLevel_mem _⟩

/-- C8 witness: the bounds at a concrete run that takes the fallback
path. -/
theorem analyze_lead_result_ranges_witness :
    0 ≤ (fallbackAnalyzeLead ⟨some 10, none, none, none⟩
        ⟨none, none, none, none, none, none, none, none⟩).qualification_score ∧
    (fallbackAnalyzeLead ⟨some 10, none, none, none⟩
        ⟨none, none, none, none, none, none, none, none⟩).qualification_score ≤ 100 ∧
    0 ≤ (fallbackAnalyzeLead ⟨some 10, none, none, none⟩
        ⟨none, none, none, none, none, none, none, none⟩).confidence ∧
    (fallbackAnalyzeLead ⟨some 10, none, none, none⟩
        ⟨none, none, none, none, none, none, none, none⟩).confidence ≤ 100 ∧
    (fallbackAnalyzeLead ⟨some 10, none, none, none⟩
        ⟨none, none, none, none, none, none, none, none⟩).qualification_level ∈ validLevels :=
  analyze_lead_result_ranges true (fun _ => LoadResult.jsonError) .apiError
    ⟨some 10, none, none, none⟩ ⟨none, none, none, none, none, none, none, none⟩
    _ rfl

/-- The point weight of each qualification category (budget 25,
authority 20, need 25, timeline 15, fit 15). -/
def missingWeight (m : PyStr) : ℚ :=
  if m = ps "budget" then 25
  else if m = ps "authority" then 20
  else if m = ps "need" then 25
  else if m = ps "timeline" then 15
  else if m = ps "fit" then 15
  else 0

/-- The total weight of a list of missing categories. -/
def missingWeights (l : List PyStr) : ℚ := (l.map missingWeight).sum

/-- A conversation dict with only `customer_requirements` set. -/
def exC9v : ConversationDict :=
  { decision_makers := none, business_goals := none, pain_points := none,
    customer_requirements := some [ 'x' ], project_timeline := none,
    urgency_level := none, tech_preferences := none, team_size := none }

/-- An empty customer dict. -/
def exC9c : CustomerData :=
  { budget_range_min := none, budget_range_max := none,
    estimated_value := none, Decision_Maker_Role := none }

theorem exC9_missing_eval : fallbackIdentifyMissing exC9c exC9v =
    [ps "budget", ps "authority", ps "need", ps "timeline", ps "fit"] := by
  decide

/-- C9 counterexample -- with only `customer_requirements` set, the score
counts the need category (25 points, since `_fallback_calculate_score`
also accepts `customer_requirements`) while `_fallback_identify_missing`
still reports `need` missing (it only checks goals and pain points), so
score plus missing weights is 125, not 100. -/
theorem fallback_need_partition_counterexample :
    fallbackCalculateScore exC9c exC9v = 25 ∧
    ps "need" ∈ fallbackIdentifyMissing exC9c exC9v ∧
    fallbackCalculateScore exC9c exC9v +
      missingWeights (fallbackIdentifyMissing exC9c exC9v) = 125 ∧
    (125 : ℚ) ≠ 100 := by
  have w1 : missingWeight (ps "budget") = 25 := by decide
  have w2 : missingWeight (ps "authority") = 20 := by decide
  have w3 : missingWeight (ps "need") = 25 := by decide
  have w4 : missingWeight (ps "timeline") = 15 := by decide
  have w5 : missingWeight (ps "fit") = 15 := by decide
  have hb : budgetInfoCond exC9c = false := by decide
  have ha : authorityInfoCond exC9c exC9v = false := by decide
  have hn : needScoreCond exC9v = true := by decide
  have ht : timelineInfoCond exC9v = false := by decide
  have hf : fitInfoCond exC9v = false := by decide
  have hscore : fallbackCalculateScore exC9c exC9v = 25 := by
    unfold fallbackCalculateScore
    rw [hb, ha, hn, ht, hf]
    norm_num
  refine ⟨hscore, ?_, ?_, by norm_num⟩
  · rw [exC9_missing_eval]
    decide
  · rw [hscore, exC9_missing_eval]
    simp only [missingWeights, List.map_cons, List.map_nil, w1, w2, w3, w4, w5,
      List.sum_cons, List.sum_nil]
    norm_num

theorem ite_pair (b : Bool) (w : ℚ) :
    ((if b = true then w else 0) + (if ¬ b = true then w else 0)) = w := by
  cases b <;> simp

theorem missingWeights_missing_eq (c : CustomerData) (v : ConversationDict) :
    missingWeights (fallbackIdentifyMissing c v) =
      (if ¬ budgetInfoCond c = true then (25 : ℚ) else 0) +
      (if ¬ authorityInfoCond c v = true then 20 else 0) +
      (if ¬ needMissingCond v = true then 25 else 0) +
      (if ¬ timelineInfoCond v = true then 15 else 0) +
      (if ¬ fitInfoCond v = true then 15 else 0) := by
  have w1 : missingWeight (ps "budget") = 25 := by decide
  have w2 : missingWeight (ps "authority") = 20 := by decide
  have w3 : missingWeight (ps "need") = 25 := by decide
  have w4 : missingWeight (ps "timeline") = 15 := by decide
  have w5 : missingWeight (ps "fit") = 15 := by decide
  unfold fallbackIdentifyMissing
  cases hb : budgetInfoCond c <;> cases ha : authorityInfoCond c v <;>
    cases hn : needMissingCond v <;> cases ht : timelineInfoCond v <;>
    cases hf : fitInfoCond v <;>
    (first
      | (simp [missingWeights, w1, w2, w3, w4, w5]; norm_num)
      | simp [missingWeights, w1, w2, w3, w4, w5])

/-- C9 (amended) -- the iff between "adds its weight" and "not reported
missing" holds for budget, authority, timeline and fit; for need, the
missing check ignores `customer_requirements` while the score counts it,
so score + missing weights is 125 instead of 100 exactly when
`customer_requirements` is the only truthy need indicator. -/
theorem fallback_score_missing_spec (c : CustomerData) (v : ConversationDict) :
    ((ps "budget" ∈ fallbackIdentifyMissing c v) ↔ ¬ budgetInfoCond c = true) ∧
    ((ps "authority" ∈ fallbackIdentifyMissing c v) ↔ ¬ authorityInfoCond c v = true) ∧
    ((ps "need" ∈ fallbackIdentifyMissing c v) ↔ ¬ needMissingCond v = true) ∧
    ((ps "timeline" ∈ fallbackIdentifyMissing c v) ↔ ¬ timelineInfoCond v = true) ∧
    ((ps "fit" ∈ fallbackIdentifyMissing c v) ↔ ¬ fitInfoCond v = true) ∧
    (fallbackCalculateScore c v + missingWeights (fallbackIdentifyMissing c v) =
      if needScoreCond v = true ∧ needMissingCond v = false then 125 else 100) := by
  refine ⟨?_, ?_, ?_, ?_, ?_, ?_⟩
  · unfold fallbackIdentifyMissing
    cases hb : budgetInfoCond c <;> cases ha : authorityInfoCond c v <;>
      cases hn : needMissingCond v <;> cases ht : timelineInfoCond v <;>
      cases hf : fitInfoCond v <;> decide
  · unfold fallbackIdentifyMissing
    cases hb : budgetInfoCond c <;> cases ha : authorityInfoCond c v <;>
      cases hn : needMissingCond v <;> cases ht : timelineInfoCond v <;>
      cases hf : fitInfoCond v <;> decide
  · unfold fallbackIdentifyMissing
    cases hb : budgetInfoCond c <;> cases ha : authorityInfoCond c v <;>
      cases hn : needMissingCond v <;> cases ht : timelineInfoCond v <;>
      cases hf : fitInfoCond v <;> decide
  · unfold fallbackIdentifyMissing
    cases hb : budgetInfoCond c <;> cases ha : authorityInfoCond c v <;>
      cases hn : needMissingCond v <;> cases ht : timelineInfoCond v <;>
      cases hf : fitInfoCond v <;> decide
  · unfold fallbackIdentifyMissing
    cases hb : budgetInfoCond c <;> cases ha : authorityInfoCond c v <;>
      cases hn : needMissingCond v <;> cases ht : timelineInfoCond v <;>
      cases hf : fitInfoCond v <;> decide
  · rw [missingWeights_missing_eq]
    unfold fallbackCalculateScore needScoreCond needMissingCond
    cases hg : pyTruthyS v.business_goals <;> cases hp : pyTruthyS v.pain_points <;>
      cases hr : pyTruthyS v.customer_requirements <;>
      (simp only [Bool.false_or, Bool.or_false, Bool.true_or, Bool.or_true,
         eq_self_iff_true, not_true, not_false_iff, Bool.true_eq_false,
         Bool.false_eq_true, true_and, and_true, false_and, and_false,
         if_true, if_false, reduceIte];
       linarith [ite_pair (budgetInfoCond c) 25, ite_pair (authorityInfoCond c v) 20,
         ite_pair (timelineInfoCond v) 15, ite_pair (fitInfoCond v) 15])

/-! ### `sprint_api._trigger_lead_qualification` -/

/-- Banker's rounding (Python `round`/format rounding, ties to even). -/
def roundHalfEven (x : ℚ) : ℤ :=
  let f := ⌊x⌋
  let r := x - f
  if r < 1/2 then f
  else if r > 1/2 then f + 1
  else if Even f then f else f + 1

/-- Python `f"{x:.1f}"`: fixed-point formatting with one decimal digit. -/
def formatFixed1 (x : ℚ) : PyStr :=
  let n := roundHalfEven (x * 10)
  let a := n.natAbs
  (if n < 0 then [ '-' ] else []) ++ (toString (a / 10)).toList ++ '.' :: (toString (a % 10)).toList

/-- `json.dumps` of a list of plain strings (`\x22` is the double quote). -/
def jsonDumps (xs : List PyStr) : PyStr :=
  ps "[" ++ List.intercalate (ps ", ") (xs.map fun s => ps "\x22" ++ s ++ ps "\x22") ++ ps "]"

/-- A row of the `ai_insights` table as built by
`_trigger_lead_qualification`. -/
structure AIInsightRec where
  deal_id : Nat
  insight_type : PyStr
  title : PyStr
  description : PyStr
  recommendations : PyStr
  confidence_score : ℚ
  triggered_by_status : PyStr
  relevant_data_points : PyStr
  suggested_actions : PyStr
  ai_model_version : PyStr
deriving DecidableEq

/-- The `AIQualificationResponse` pydantic model. -/
structure AIQualificationResponse where
  deal_id : Nat
  qualification_score : ℚ
  missing_information : List PyStr
  suggested_questions : List PyStr
  next_steps : List PyStr
  confidence : ℚ
deriving DecidableEq

/-- The hardcoded default analysis dict of `_trigger_lead_qualification`'s
`except` clause. -/
def defaultLeadAnalysis : AnalysisDict :=
  { qualification_score := 70
    qualification_level := ps "Qualified"
    missing_information := [ps "Budget confirmation", ps "Timeline details"]
    suggested_questions :=
      [ps "What is your budget range?",
       ps "When do you need this implemented?",
       ps "Who are the key decision makers?"]
    next_steps := [ps "Schedule technical discussion", ps "Prepare proposal"]
    recommendations := [ps "Proceed with qualification", ps "Gather more requirements"]
    confidence := 65 }

/-- `sprint_api._trigger_lead_qualification`: 404 when the deal is
missing; otherwise run the agent (here: its outcome), fall back to the
hardcoded default dict when it raises, store the `AIInsight` row built
from the analysis, and return the `AIQualificationResponse` built from it
(questions truncated to five). -/
def triggerLeadQualification (deal_id : Nat) (dealExists : Bool)
    (agentOutcome : Except Unit AnalysisDict) :
    Except ApiError (AIInsightRec × AIQualificationResponse) :=
  if ¬ dealExists then .error (.http 404 (ps "Deal not found"))
  else
    let analysis := match agentOutcome with
      | .ok a => a
      | .error _ => defaultLeadAnalysis
    let insight : AIInsightRec :=
      { deal_id := deal_id
        insight_type := ps "lead_qualification"
        title := ps "Lead Qualification Analysis"
        description := ps "Qualification Score: " ++ formatFixed1 analysis.qualification_score
          ++ ps "% - " ++ analysis.qualification_level
        recommendations := jsonDumps analysis.recommendations
        confidence_score := analysis.confidence
        triggered_by_status := normalize_status (.enum .lead)
        relevant_data_points := jsonDumps analysis.missing_information
        suggested_actions := jsonDumps analysis.next_steps
        ai_model_version := ps "lead_qualification_v1.0" }
    .ok (insight,
      { deal_id := deal_id
        qualification_score := analysis.qualification_score
        missing_information := analysis.missing_information
        suggested_questions := analysis.suggested_questions.take 5
        next_steps := analysis.next_steps
        confidence := analysis.confidence })

theorem formatFixed1_70 : formatFixed1 70 = ps "70.0" := by
  have hn : roundHalfEven ((70 : ℚ) * 10) = 700 := by
    unfold roundHalfEven
    norm_num
  unfold formatFixed1
  rw [hn]
  decide

/-- C6 -- when the lead-qualification agent raises,
`_trigger_lead_qualification` still succeeds with the hardcoded default
analysis: it stores the `AIInsight` row built from the default dict
(score 70.0, level Qualified, confidence 65.0, fixed lists) and returns
the `AIQualificationResponse` built from it. -/
theorem trigger_lead_qualification_default (deal_id : Nat) (dealExists : Bool)
    (h : dealExists = true) :
    triggerLeadQualification deal_id dealExists (.error ()) =
      .ok
        ({ deal_id := deal_id
           insight_type := ps "lead_qualification"
           title := ps "Lead Qualification Analysis"
           description := ps "Qualification Score: 70.0% - Qualified"
           recommendations :=
             ps "[\x22Proceed with qualification\x22, \x22Gather more requirements\x22]"
           confidence_score := 65
           triggered_by_status := ps "lead"
           relevant_data_points :=
             ps "[\x22Budget confirmation\x22, \x22Timeline details\x22]"
           suggested_actions :=
             ps "[\x22Schedule technical discussion\x22, \x22Prepare proposal\x22]"
           ai_model_version := ps "lead_qualification_v1.0" },
         { deal_id := deal_id
           qualification_score := 70
           missing_information := [ps "Budget confirmation", ps "Timeline details"]
           suggested_questions :=
             [ps "What is your budget range?",
              ps "When do you need this implemented?",
              ps "Who are the key decision makers?"]
           next_steps := [ps "Schedule technical discussion", ps "Prepare proposal"]
           confidence := 65 }) := by
  subst h
  unfold triggerLeadQualification
  rw [if_neg (by simp)]
  simp only [defaultLeadAnalysis, formatFixed1_70]
  congr 1

/-- C6 witness at a concrete deal id. -/
theorem trigger_lead_qualification_default_witness :
    triggerLeadQualification 42 true (.error ()) =
      .ok
        ({ deal_id := 42
           insight_type := ps "lead_qualification"
           title := ps "Lead Qualification Analysis"
           description := ps "Qualification Score: 70.0% - Qualified"
           recommendations :=
             ps "[\x22Proceed with qualification\x22, \x22Gather more requirements\x22]"
           confidence_score := 65
           triggered_by_status := ps "lead"
           relevant_data_points :=
             ps "[\x22Budget confirmation\x22, \x22Timeline details\x22]"
           suggested_actions :=
             ps "[\x22Schedule technical discussion\x22, \x22Prepare proposal\x22]"
           ai_model_version := ps "lead_qualification_v1.0" },
         { deal_id := 42
           qualification_score := 70
           missing_information := [ps "Budget confirmation", ps "Timeline details"]
           suggested_questions :=
             [ps "What is your budget range?",
              ps "When do you need this implemented?",
              ps "Who are the key decision makers?"]
           next_steps := [ps "Schedule technical discussion", ps "Prepare proposal"]
           confidence := 65 }) :=
  trigger_lead_qualification_default 42 true rfl

/-! ### `ai_models.ChurnPredictor`

The scikit-learn `RandomForestClassifier` (with the feature scaler) is
abstracted as an `oracle : List ℚ → ℚ` giving `predict_proba` on the
prepared feature row; everything else in `predict`, `train` and the
helpers is embedded. -/

/-- The customer CRM fields `ChurnPredictor` reads. -/
structure ChurnCustomer where
  id : Nat
  Customer_ID : Option PyStr
  Customer_Tenure_Months : Option ℚ
  Logins_Per_Month : Option ℚ
  Active_Features_Used : Option ℚ
  Product_Usage_Hours : Option ℚ
  Tickets_Raised : Option ℚ
  Avg_Response_Time_Support : Option ℚ
  NPS_Score : Option ℚ
  Renewals_Count : Option ℚ
  Expansion_Flag : Bool
  ACV_USD : Option ℚ
  LTV_USD : Option ℚ
  Company_Size : Option ℚ
  Churn_Flag : Bool
deriving DecidableEq

/-- `ChurnPredictor.prepare_features` for one customer (`x or 0`). -/
def prepare_features (c : ChurnCustomer) : List ℚ :=
  [c.Customer_Tenure_Months.getD 0, c.Logins_Per_Month.getD 0,
   c.Active_Features_Used.getD 0, c.Product_Usage_Hours.getD 0,
   c.Tickets_Raised.getD 0, c.Avg_Response_Time_Support.getD 0,
   c.NPS_Score.getD 0, c.Renewals_Count.getD 0,
   if c.Expansion_Flag then 1 else 0,
   c.ACV_USD.getD 0, c.LTV_USD.getD 0, c.Company_Size.getD 0]

/-- The `ChurnPredictionResult` dataclass. -/
structure ChurnPredictionResult where
  customer_id : PyStr
  churn_probability : ℚ
  risk_level : PyStr
  risk_factors : List PyStr
  recommendations : List PyStr
  prediction_confidence : ℚ
deriving DecidableEq

/-- The predictor state the embedded claims depend on. -/
structure ChurnPredictor where
  is_trained : Bool
deriving DecidableEq

/-- `ChurnPredictor.__init__`: `is_trained = False`. -/
def ChurnPredictor.init : ChurnPredictor := { is_trained := false }

/-- The churn label `1 if c.Churn_Flag else 0`. -/
def churnLabel (c : ChurnCustomer) : Nat := if c.Churn_Flag then 1 else 0

/-- `ChurnPredictor.train`: returns early (leaving `is_trained` as is) on
an empty customer list or when the labels have fewer than two distinct
classes; otherwise fits the model and sets `is_trained`. -/
def ChurnPredictor.train (p : ChurnPredictor) (customers : List ChurnCustomer) :
    ChurnPredictor :=
  if customers = [] then p
  else if ((customers.map churnLabel).dedup).length < 2 then p
  else { p with is_trained := true }

/-- `customer.Customer_ID or str(customer.id)`. -/
def churnCustomerId (c : ChurnCustomer) : PyStr :=
  match c.Customer_ID with
  | some s => if s ≠ [] then s else (toString c.id).toList
  | none => (toString c.id).toList

/-- `ChurnPredictor._identify_risk_factors`. -/
def identifyRiskFactors (c : ChurnCustomer) : List PyStr :=
  (if c.NPS_Score.getD 0 < 30 then [ps "Low NPS Score"] else []) ++
  (if c.Logins_Per_Month.getD 0 < 5 then [ps "Low Login Frequency"] else []) ++
  (if c.Active_Features_Used.getD 0 < 3 then [ps "Limited Feature Usage"] else []) ++
  (if c.Tickets_Raised.getD 0 > 10 then [ps "High Support Ticket Volume"] else []) ++
  (if c.Avg_Response_Time_Support.getD 0 > 24 then [ps "Slow Support Response"] else []) ++
  (if ¬ c.Expansion_Flag ∧ c.Customer_Tenure_Months.getD 0 > 12
    then [ps "No Account Expansion"] else [])

/-- `ChurnPredictor._generate_recommendations`. -/
def generateChurnRecommendations (rf : List PyStr) : List PyStr :=
  (if ps "Low NPS Score" ∈ rf
    then [ps "Schedule customer success call to address satisfaction"] else []) ++
  (if ps "Low Login Frequency" ∈ rf
    then [ps "Implement user engagement campaign"] else []) ++
  (if ps "Limited Feature Usage" ∈ rf
    then [ps "Provide feature training and onboarding"] else []) ++
  (if ps "High Support Ticket Volume" ∈ rf
    then [ps "Proactive account review and technical optimization"] else []) ++
  (if ps "Slow Support Response" ∈ rf
    then [ps "Prioritize support response for this customer"] else []) ++
  (if ps "No Account Expansion" ∈ rf
    then [ps "Present upselling and expansion opportunities"] else [])

/-- `ChurnPredictor.predict`: the fixed untrained result, or the model
path (probability from the oracle, thresholded risk level, rule-based
risk factors and recommendations). -/
def ChurnPredictor.predict (p : ChurnPredictor) (oracle : List ℚ → ℚ)
    (c : ChurnCustomer) : ChurnPredictionResult :=
  if ¬ p.is_trained then
    { customer_id := churnCustomerId c
      churn_probability := 1/2
      risk_level := ps "Unknown"
      risk_factors := [ps "Model not trained"]
      recommendations := [ps "Train the model with sufficient data"]
      prediction_confidence := 0 }
  else
    let churn_prob := oracle (prepare_features c)
    let risk_level :=
      if churn_prob < 3/10 then ps "Low"
      else if churn_prob < 7/10 then ps "Medium"
      else ps "High"
    let risk_factors := identifyRiskFactors c
    { customer_id := churnCustomerId c
      churn_probability := churn_prob
      risk_level := risk_level
      risk_factors := risk_factors
      recommendations := generateChurnRecommendations risk_factors
      prediction_confidence := max churn_prob (1 - churn_prob) }

/-- C10 -- before training (`is_trained` false, in particular after
`train` on no customers or a single churn class), `predict` returns the
fixed result (probability 0.5, risk level Unknown, risk factors
`['Model not trained']`, confidence 0.0) and never consults the model:
the result is independent of the oracle. -/
theorem churn_predict_untrained_spec :
    (∀ (p : ChurnPredictor) (oracle : List ℚ → ℚ) (c : ChurnCustomer),
      p.is_trained = false →
      p.predict oracle c =
        { customer_id := churnCustomerId c
          churn_probability := 1/2
          risk_level := ps "Unknown"
          risk_factors := [ps "Model not trained"]
          recommendations := [ps "Train the model with sufficient data"]
          prediction_confidence := 0 }) ∧
    (∀ (p : ChurnPredictor) (oracle oracle2 : List ℚ → ℚ) (c : ChurnCustomer),
      p.is_trained = false → p.predict oracle c = p.predict oracle2 c) ∧
    (ChurnPredictor.init.is_trained = false) ∧
    (∀ customers : List ChurnCustomer,
      customers = [] ∨ ((customers.map churnLabel).dedup).length < 2 →
      (ChurnPredictor.init.train customers).is_trained = false) := by
  have huntrained : ∀ (p : ChurnPredictor) (oracle : List ℚ → ℚ) (c : ChurnCustomer),
      p.is_trained = false →
      p.predict oracle c =
        { customer_id := churnCustomerId c
          churn_probability := 1/2
          risk_level := ps "Unknown"
          risk_factors := [ps "Model not trained"]
          recommendations := [ps "Train the model with sufficient data"]
          prediction_confidence := 0 } := by
    intro p oracle c h
    unfold ChurnPredictor.predict
    rw [if_pos (by simp [h])]
  refine ⟨huntrained, ?_, rfl, ?_⟩
  · intro p o1 o2 c h
    rw [huntrained p o1 c h, huntrained p o2 c h]
  · intro customers h
    unfold ChurnPredictor.train
    rcases h with h | h
    · rw [if_pos h]
      rfl
    · by_cases he : customers = []
      · rw [if_pos he]
        rfl
      · rw [if_neg he, if_pos h]
        rfl

/-- C10 witness at a concrete untrained predictor, oracle and customer. -/
theorem churn_predict_untrained_spec_witness :
    ChurnPredictor.init.predict (fun _ => 9/10)
      ⟨7, none, none, none, none, none, none, none, none, none, false, none, none, none, false⟩ =
      { customer_id := churnCustomerId
          ⟨7, none, none, none, none, none, none, none, none, none, false, none, none, none, false⟩
        churn_probability := 1/2
        risk_level := ps "Unknown"
        risk_factors := [ps "Model not trained"]
        recommendations := [ps "Train the model with sufficient data"]
        prediction_confidence := 0 } :=
  churn_predict_untrained_spec.1 ChurnPredictor.init (fun _ => 9/10)
    ⟨7, none, none, none, none, none, none, none, none, none, false, none, none, none, false⟩ rfl
